import Mathlib

/-!
Verification development for the imap-hibernate client core
(src/imap-hibernate/imap-client.c).

The definitions below are a shallow embedding of the C source: bytes are
modelled as Nat, buffers as List Nat, and the event-driven pieces as pure
functions over explicit client-state records with the results of the
fallible system calls (connect, flush, send) passed in as parameters.
-/

/-- ASCII tolower on a byte, as performed by i_memcasecmp: an upper-case
letter is mapped to the corresponding lower-case letter. -/
def lowerByte (b : Nat) : Nat :=
  if 65 ≤ b ∧ b ≤ 90 then b + 32 else b

/-- The keyword DONE, lowered byte by byte. -/
def DONE_low : List Nat := [100, 111, 110, 101]

/-- The keyword IDLE, lowered byte by byte. -/
def IDLE_low : List Nat := [105, 100, 108, 101]

/-- i_memcasecmp(data, "DONE", I_MIN(size, 4)) == 0.  The C call compares
the first min(size, 4) bytes of both buffers case-insensitively.  List.take
truncates at the length of the list, so taking 4 from data and taking
data.length from the 4-byte literal compares exactly min(size, 4) bytes. -/
def i_memcasecmp_done (data : List Nat) : Prop :=
  (data.take 4).map lowerByte = DONE_low.take data.length

instance (data : List Nat) : Decidable (i_memcasecmp_done data) := by
  unfold i_memcasecmp_done; exact inferInstance

/-- i_memcasecmp(data, "IDLE", 4) == 0; in the source this is evaluated only
when size > 4, so all four bytes exist. -/
def i_memcasecmp_idle (data : List Nat) : Prop :=
  (data.take 4).map lowerByte = IDLE_low

instance (data : List Nat) : Decidable (i_memcasecmp_idle data) := by
  unfold i_memcasecmp_idle; exact inferInstance

/-- The tag-skipping loop of imap_client_input_parse:

  while(data[0] != ' ' && data[0] != '\x5cr' && data[0] != '\x5ct') \x7b data++; size--; \x7d

The loop dereferences data[0] without checking that size > 0.  In this total
embedding running off the end of the buffer yields none; otherwise the
consumed tag bytes and the remaining buffer (whose head is the terminating
byte) are returned. -/
def skipTag : List Nat → Option (List Nat × List Nat)
  | [] => none
  | b :: rest =>
    if b ≠ 32 ∧ b ≠ 13 ∧ b ≠ 9 then
      match skipTag rest with
      | none => none
      | some (t, r) => some (b :: t, r)
    else
      some ([], b :: rest)

/-- enum imap_client_input_state. -/
inductive InputState where
  | unknown
  | bad
  | doneLF
  | doneCRLF
  | doneIdle (tag : List Nat)
deriving DecidableEq

/-- Total result of the parse: either one of the enum states (with the tag
for DONEIDLE, which the C function returns through tag_r), or the marker
that the function read past the end of the buffer. -/
inductive ParseResult where
  | ok (s : InputState)
  | outOfRange
deriving DecidableEq

/-- imap_client_input_parse(data, size, tag_r), translated branch by branch
from src/imap-hibernate/imap-client.c lines 336-394.  The C pointer
arithmetic (data++/size--) is modelled by List.drop and List.tail, and each
data[0] access by List.head? on a buffer that provably has the byte, except
in the tag loop where the source performs an unchecked access (skipTag). -/
def imap_client_input_parse (data : List Nat) : ParseResult :=
  -- skip over DONE[\r]\n
  if ¬ i_memcasecmp_done data then .ok .bad
  else if data.length ≤ 4 then .ok .unknown
  else
    let d1 := data.drop 4
    let st := if d1.head? = some 13 then InputState.doneCRLF else InputState.doneLF
    let d2 := if d1.head? = some 13 then d1.tail else d1
    if d2 = [] then .ok .unknown
    else if d2.head? ≠ some 10 then .ok .bad
    else
      let d3 := d2.tail
      if d3 = [] then .ok st
      else
        -- skip over tag
        match skipTag d3 with
        | none => .outOfRange
        | some (tag, d4) =>
          if d4 = [] then .ok st
          else if d4.head? ≠ some 32 then .ok .bad
          else
            let d5 := d4.tail
            -- skip over IDLE[\r]\n
            if d5.length ≤ 4 ∨ ¬ i_memcasecmp_idle d5 then .ok st
            else
              let d6 := d5.drop 4
              let d7 := if d6.head? = some 13 then d6.tail else d6
              if d7 = [10] then .ok (.doneIdle tag) else .ok st

/-- Bytes of a Lean string literal; used to embed the C string literals. -/
def strBytes (s : String) : List Nat := s.data.map Char.toNat

/-- #define IMAP_CLIENT_BUFFER_FULL_ERROR. -/
def IMAP_CLIENT_BUFFER_FULL_ERROR : String := "Client output buffer is full"

/-- #define IMAP_CLIENT_UNHIBERNATE_ERROR. -/
def IMAP_CLIENT_UNHIBERNATE_ERROR : String := "Failed to unhibernate client"

/-- #define IMAP_CLIENT_MOVE_BACK_WITH_INPUT_TIMEOUT_SECS. -/
def IMAP_CLIENT_MOVE_BACK_WITH_INPUT_TIMEOUT_SECS : Nat := 10

/-- #define IMAP_CLIENT_MOVE_BACK_WITHOUT_INPUT_TIMEOUT_SECS. -/
def IMAP_CLIENT_MOVE_BACK_WITHOUT_INPUT_TIMEOUT_SECS : Nat := 60 * 5

/-- The bytes written to the client on a DONE+IDLE refresh:
t_strdup_printf("%s OK Idle completed.\x5cr\x5cn+ idling\x5cr\x5cn", old_tag). -/
def ok_idle_completed (old_tag : List Nat) : List Nat :=
  old_tag ++ strBytes " OK Idle completed.\r\n+ idling\r\n"

/-- One entry of the notifys array: an external-notification fd together
with the registration state of its read-readiness watcher. -/
structure NotifyWatcher where
  fd_open : Bool
  io_registered : Bool
deriving DecidableEq

/-- The fields of struct imap_client consulted by
imap_client_try_move_back, client_unhibernate_cmp and
imap_move_has_reached_timeout: the used size of the output buffer, the
move-back bookkeeping, the queued flag, the client read watcher, the
keepalive timer and the notify watchers. -/
structure Client where
  output_buf_used : Nat
  move_back_start : Nat
  input_pending : Bool
  unhibernate_queued : Bool
  io_watcher : Bool
  keepalive : Bool
  notifys : List NotifyWatcher
deriving DecidableEq

/-- imap_move_has_reached_timeout (lines 266-273):
move_back_start != 0 && ioloop_time - move_back_start > max_secs. -/
def imap_move_has_reached_timeout (now : Nat) (c : Client) : Prop :=
  c.move_back_start ≠ 0 ∧
    now - c.move_back_start >
      (if c.input_pending then IMAP_CLIENT_MOVE_BACK_WITH_INPUT_TIMEOUT_SECS
       else IMAP_CLIENT_MOVE_BACK_WITHOUT_INPUT_TIMEOUT_SECS)

instance (now : Nat) (c : Client) : Decidable (imap_move_has_reached_timeout now c) := by
  unfold imap_move_has_reached_timeout; exact inferInstance

/-- The deadline the specification assigns to a queued session:
move_back_start + T(input_pending), with T(true class) = 10 s and
T(false class) = 5 min. -/
def unhibernate_deadline (c : Client) : Nat :=
  c.move_back_start +
    (if c.input_pending then IMAP_CLIENT_MOVE_BACK_WITH_INPUT_TIMEOUT_SECS
     else IMAP_CLIENT_MOVE_BACK_WITHOUT_INPUT_TIMEOUT_SECS)

/-- client_unhibernate_cmp (lines 810-828), the priority-queue comparator. -/
def client_unhibernate_cmp (c1 c2 : Client) : Int :=
  let t1 := c1.move_back_start +
    (if c1.input_pending then IMAP_CLIENT_MOVE_BACK_WITH_INPUT_TIMEOUT_SECS
     else IMAP_CLIENT_MOVE_BACK_WITHOUT_INPUT_TIMEOUT_SECS)
  let t2 := c2.move_back_start +
    (if c2.input_pending then IMAP_CLIENT_MOVE_BACK_WITH_INPUT_TIMEOUT_SECS
     else IMAP_CLIENT_MOVE_BACK_WITHOUT_INPUT_TIMEOUT_SECS)
  if t1 < t2 then -1 else if t1 > t2 then 1 else 0

/-- Result of imap_master_connection_init: ret > 0 (success), ret < 0
(permanent failure), ret == 0 (transient failure, master socket busy). -/
inductive ConnectResult where
  | success
  | failure
  | busy
deriving DecidableEq

/-- imap_client_stop_notify_listening (lines 704-712): for every notify
entry, io_remove its watcher and close its fd. -/
def imap_client_stop_notify_listening (ns : List NotifyWatcher) : List NotifyWatcher :=
  ns.map fun _ => { fd_open := false, io_registered := false }

/-- The per-client effect of imap_client_stop (lines 714-723): drop the
queued flag (the queue itself is modelled separately), io_remove the client
watcher, remove the keepalive timer, stop notify listening. -/
def imap_client_stop (c : Client) : Client :=
  { c with unhibernate_queued := false, io_watcher := false, keepalive := false,
           notifys := imap_client_stop_notify_listening c.notifys }

/-- What an attempt did to the session: destroyed it with a reason,
established the master connection (imap_client_stop was run and the reply
is awaited), or left it to be retried with the given state. -/
inductive AttemptResult where
  | destroyed (reason : String)
  | stopped (c : Client)
  | retryLater (c : Client)
deriving DecidableEq

/-- Return value and effects of one imap_client_try_move_back call. -/
structure TryMoveBackResult where
  returned : Bool
  connection_initiated : Bool
  result : AttemptResult
deriving DecidableEq

/-- imap_client_try_move_back (lines 275-316).  The outcome of
imap_master_connection_init is a parameter; connection_initiated records
whether that call was made at all. -/
def imap_client_try_move_back (now : Nat) (conn : ConnectResult) (c : Client) :
    TryMoveBackResult :=
  if 0 < c.output_buf_used then
    -- there is data buffered, so we have to disconnect you
    ⟨true, false, .destroyed IMAP_CLIENT_BUFFER_FULL_ERROR⟩
  else
    match conn with
    | .success => ⟨true, true, .stopped (imap_client_stop c)⟩
    | .failure => ⟨true, true, .destroyed IMAP_CLIENT_UNHIBERNATE_ERROR⟩
    | .busy =>
      if imap_move_has_reached_timeout now c then
        ⟨true, true, .destroyed IMAP_CLIENT_UNHIBERNATE_ERROR⟩
      else
        ⟨false, true, .retryLater
          { c with io_watcher := if c.input_pending then false else c.io_watcher,
                   notifys := imap_client_stop_notify_listening c.notifys }⟩

/-- The connection outcome the next imap_master_connection_init call gets. -/
def headConn : List ConnectResult → ConnectResult
  | [] => .busy
  | r :: _ => r

def tailConn : List ConnectResult → List ConnectResult
  | [] => []
  | _ :: rs => rs

/-- Effects of one firing of the shared retry timer. -/
structure TickResult where
  queue : List Client
  attempts : Nat
  timer_removed : Bool
deriving DecidableEq

/-- imap_clients_unhibernate (lines 830-841): while the queue has a head,
run imap_client_try_move_back on it; a TRUE return means the head was
resolved (destroyed, or stopped on success) and hence left the queue, so the
loop continues with the next head; a FALSE return ends the tick; an emptied
queue removes the shared timer.  The queue is the priority queue in head
order; attempts counts the try_move_back calls made during the tick. -/
def imap_clients_unhibernate : Nat → List ConnectResult → List Client → TickResult
  | _, _, [] => ⟨[], 0, true⟩
  | now, conns, c :: rest =>
    let r := imap_client_try_move_back now (headConn conns) c
    if r.returned then
      let t := imap_clients_unhibernate now (tailConn conns) rest
      ⟨t.queue, t.attempts + 1, t.timer_removed⟩
    else
      ⟨(match r.result with
        | .retryLater c2 => c2 :: rest
        | _ => c :: rest), 1, false⟩

/-- What imap_client_destroy (lines 725-775) does to the client fd:
if shutdown_fd_on_destroy, shutdown(fd, SHUT_RDWR); then, after tearing the
streams down, i_close_fd(&client->fd) unconditionally. -/
structure FdEffect where
  shutdown_rdwr : Bool
  closed : Bool
deriving DecidableEq

def imap_client_destroy_fd_effect (shutdown_fd_on_destroy : Bool) : FdEffect :=
  { shutdown_rdwr := shutdown_fd_on_destroy, closed := true }

/-- imap_client_move_back_read_callback (lines 252-264) restricted to its
effect on the fd: a reply line not beginning with + destroys the client
with the shutdown flag as it stands; a + reply clears
shutdown_fd_on_destroy and destroys the client. -/
def imap_client_move_back_read_callback (shutdown_fd_on_destroy : Bool)
    (line : List Nat) : FdEffect :=
  if line.head? ≠ some 43 then
    imap_client_destroy_fd_effect shutdown_fd_on_destroy
  else
    imap_client_destroy_fd_effect false

/-- The fields of struct imap_client consulted by
imap_client_input_idle_cmd (lines 396-462). -/
structure IdleClient where
  tag : List Nat
  next_read_threshold : Nat
  bad_done : Bool
  idle_done : Bool
  input_pending : Bool
  imap_idle_notify_interval : Nat
  keepalive_timer : Bool
deriving DecidableEq

/-- Results of the stream calls made by imap_client_input_idle_cmd:
i_stream_read_bytes (consulted when no data is buffered), o_stream_flush
and o_stream_send_str. -/
structure IdleEnv where
  read_ret : Int
  flush_ret : Int
  send_ret : Int
deriving DecidableEq

/-- imap_client_add_idle_keepalive_timeout (lines 500-513): a zero
imap_idle_notify_interval leaves the timer alone, otherwise the timer is
(re)armed. -/
def imap_client_add_idle_keepalive (c : IdleClient) : IdleClient :=
  if c.imap_idle_notify_interval = 0 then c else { c with keepalive_timer := true }

/-- Outcome of one imap_client_input_idle_cmd callback.  movedBack means
imap_client_move_back was entered (the session wants to unhibernate);
stillHibernating carries the bytes written to the client and how many input
bytes were skipped. -/
inductive IdleCmdResult where
  | returnedNoData
  | disconnected
  | waitMore (c : IdleClient)
  | outOfRangeRead
  | destroyed (reason : String)
  | movedBack (c : IdleClient) (skipped : Nat)
  | stillHibernating (c : IdleClient) (wrote : List Nat) (skipped : Nat)
deriving DecidableEq

/-- imap_client_input_idle_cmd (lines 396-462), with data the bytes
i_stream_read_bytes returned. -/
def imap_client_input_idle_cmd (c : IdleClient) (data : List Nat) (env : IdleEnv) :
    IdleCmdResult :=
  if data.length = 0 then
    (if env.read_ret < 0 then .disconnected else .returnedNoData)
  else
    let c0 : IdleClient := { c with next_read_threshold := 0 }
    match imap_client_input_parse data with
    | .outOfRange => .outOfRangeRead
    | .ok .unknown =>
      -- we have not received a full DONE[\r]\n yet - wait
      .waitMore { c0 with next_read_threshold := data.length }
    | .ok .bad =>
      -- invalid input - return this to the imap process
      .movedBack { c0 with bad_done := true, idle_done := true, input_pending := true } 0
    | .ok .doneLF =>
      .movedBack { c0 with idle_done := true, input_pending := true } (4 + 1)
    | .ok .doneCRLF =>
      .movedBack { c0 with idle_done := true, input_pending := true } (4 + 2)
    | .ok (.doneIdle new_tag) =>
      -- DONE+IDLE: the client simply wanted to notify us that it is still
      -- there; continue hibernation
      let old_tag := c0.tag
      let c1 : IdleClient := { c0 with tag := new_tag }
      let out := ok_idle_completed old_tag
      let ret1 := env.flush_ret
      let ret2 := if ret1 > 0 then env.send_ret else ret1
      if ret2 < 0 then .disconnected
      else if ret2 ≠ (out.length : Int) then .destroyed IMAP_CLIENT_BUFFER_FULL_ERROR
      else .stillHibernating (imap_client_add_idle_keepalive c1) out data.length

/-- A client as seen by the queue-membership invariant: its identity and
its unhibernate_queued flag. -/
structure QClient where
  cid : Nat
  unhibernate_queued : Bool
deriving DecidableEq

/-- The global structures of imap-client.c: the imap_clients list and the
unhibernate_queue priority queue (as the multiset of member items,
identified by client id). -/
structure GState where
  clients : List QClient
  queue : List Nat
deriving DecidableEq

/-- Set the unhibernate_queued flag of the client with the given id. -/
def setQueued (clients : List QClient) (i : Nat) (b : Bool) : List QClient :=
  clients.map fun c => if c.cid = i then { c with unhibernate_queued := b } else c

/-- Read the unhibernate_queued flag of the client with the given id. -/
def getQueued (clients : List QClient) (i : Nat) : Bool :=
  match clients.find? (fun c => c.cid == i) with
  | some c => c.unhibernate_queued
  | none => false

/-- The enqueue step of imap_client_move_back (lines 326-329): if
!client->unhibernate_queued, set the flag and priorityq_add the item. -/
def gmove_back_enqueue (s : GState) (i : Nat) : GState :=
  if getQueued s.clients i then s
  else { clients := setQueued s.clients i true, queue := i :: s.queue }

/-- imap_client_stop (lines 714-723) as it acts on the global queue: if the
flag is set, priorityq_remove the item and clear the flag. -/
def gstop (s : GState) (i : Nat) : GState :=
  if getQueued s.clients i then
    { clients := setQueued s.clients i false, queue := s.queue.filter (· != i) }
  else s

/-- imap_client_destroy (lines 725-775) as it acts on the global
structures: DLLIST_REMOVE of the client and imap_client_stop. -/
def gdestroy (s : GState) (i : Nat) : GState :=
  let s1 := gstop s i
  { clients := s1.clients.filter (fun c => c.cid != i), queue := s1.queue }

/-- The specified invariant: a session is in the retry priority queue iff
its unhibernate_queued flag is true. -/
def queueInv (s : GState) : Prop :=
  ∀ c ∈ s.clients, (c.unhibernate_queued = true ↔ c.cid ∈ s.queue)

instance (s : GState) : Decidable (queueInv s) := by
  unfold queueInv; exact inferInstance

/-- The fields of struct imap_client consulted by imap_clients_kick. -/
structure KClient where
  username : String
  anvil_conn_guid : List Nat
deriving DecidableEq

/-- guid_128_is_empty. -/
def guid_128_is_empty (g : List Nat) : Bool := g.all (· == 0)

/-- The match condition of imap_clients_kick (lines 860-862):
strcmp(username, user) == 0 and the guid is empty or equal. -/
def kick_matches (c : KClient) (user : String) (conn_guid : List Nat) : Bool :=
  c.username == user &&
    (guid_128_is_empty conn_guid || c.anvil_conn_guid == conn_guid)

/-- imap_clients_kick (lines 853-866): walk the client list, kick (destroy)
every match; count is initialised to 0, never incremented, and returned.
The first component is the list of surviving clients, the second the
returned count. -/
def imap_clients_kick (clients : List KClient) (user : String) (conn_guid : List Nat) :
    List KClient × Nat :=
  match clients with
  | [] => ([], 0)
  | c :: rest =>
    let r := imap_clients_kick rest user conn_guid
    if kick_matches c user conn_guid then r else (c :: r.1, r.2)


/-- A queued session with client input pending and one live notify watcher. -/
def exampleClientA : Client :=
  { output_buf_used := 0, move_back_start := 1, input_pending := true,
    unhibernate_queued := true, io_watcher := true, keepalive := false,
    notifys := [{ fd_open := true, io_registered := true }] }

/-- A queued session driven only by an external notification. -/
def exampleClientB : Client :=
  { output_buf_used := 0, move_back_start := 2, input_pending := false,
    unhibernate_queued := true, io_watcher := false, keepalive := true,
    notifys := [] }

/-- A hibernated IDLE session with tag A000 and keepalives enabled. -/
def exampleIdleClient : IdleClient :=
  { tag := [65, 48, 48, 48], next_read_threshold := 0, bad_done := false,
    idle_done := false, input_pending := false, imap_idle_notify_interval := 120,
    keepalive_timer := false }

/-- The accumulated input DONE CRLF A001 SP IDLE CRLF. -/
def exampleDoneIdleInput : List Nat :=
  [68, 79, 78, 69, 13, 10, 65, 48, 48, 49, 32, 73, 68, 76, 69, 13, 10]

/-- Stream-call results where the flush makes progress and the send accepts
the whole 35-byte reply. -/
def exampleIdleEnv : IdleEnv :=
  { read_ret := 1, flush_ret := 1, send_ret := 35 }

/-- Claim C10 (code bug shown on a concrete input): the claim says the
parser inspects only bytes 0..size-1, so the out-of-range branch is
unreachable; but on DONE LF followed by a tag byte and nothing else, the
tag-skipping loop dereferences one byte past the end of the buffer. -/
theorem C10_overread_on_unterminated_tag :
    imap_client_input_parse [68, 79, 78, 69, 10, 65] = .outOfRange := by decide

/-- Claim C1 counterexample: even for a session destroyed after the broker
read callback received a reply line beginning with +, the core closes the
client fd (imap_client_destroy always ends in i_close_fd), so the claim
that the fd is not closed on that path is false. -/
theorem C1_counterexample :
    (imap_client_move_back_read_callback true [43]).closed = true ∧
    ¬ (imap_client_move_back_read_callback true [43]).closed = false := by decide

/-- Claim C1 (amended): every destruction closes the fd; when
shutdown_fd_on_destroy is true at destruction the fd is first half-closed
with shutdown(RDWR); a reply beginning with + clears the flag before
destroying, so that path closes without a shutdown, while any other reply
destroys with the flag as it stands. -/
theorem C1_fd_disposition : ∀ (flag : Bool) (line : List Nat),
    (imap_client_move_back_read_callback flag line).closed = true ∧
    ((imap_client_move_back_read_callback flag line).shutdown_rdwr = true ↔
      (flag = true ∧ line.head? ≠ some 43)) ∧
    ∀ f : Bool, (imap_client_destroy_fd_effect f).closed = true ∧
      (imap_client_destroy_fd_effect f).shutdown_rdwr = f := by
  intro flag line
  by_cases h : line.head? = some 43 <;>
    cases flag <;>
      simp [imap_client_move_back_read_callback, imap_client_destroy_fd_effect, h]

/-- Claim C3 (code bug shown on a concrete session): in the retry path
(transient busy, deadline not reached) imap_client_try_move_back removes
the client read watcher because input_pending is true, but it also calls
imap_client_stop_notify_listening, which deregisters every notify watcher
and closes its fd; the claim (and the specification) say notify watchers
stay registered with their fds open. -/
theorem C3_retry_path_drops_notify_watchers :
    imap_client_try_move_back 5 ConnectResult.busy exampleClientA =
      ⟨false, true, .retryLater
        { exampleClientA with
          io_watcher := false,
          notifys := [{ fd_open := false, io_registered := false }] }⟩ := by decide

/-- Claim C4 counterexample: with two queued sessions whose attempts both
resolve terminally, one firing of the shared retry tick processes both of
them, so more than one attempt is processed in a single iteration. -/
theorem C4_counterexample :
    (imap_clients_unhibernate 5 [ConnectResult.failure, ConnectResult.failure]
        [exampleClientA, exampleClientB]).attempts = 2 ∧
    ¬ ((imap_clients_unhibernate 5 [ConnectResult.failure, ConnectResult.failure]
        [exampleClientA, exampleClientB]).attempts ≤ 1) := by decide

/-- Claim C4 (amended): the retry tick walks the queue from the head and
keeps processing as long as each attempt resolves terminally - in
particular, if every queued attempt fails terminally the whole queue is
processed in that one tick and the shared timer is removed - and it stops
after the first attempt that defers, leaving the rest untouched. -/
theorem C4_batched_tick :
    (∀ (now : Nat) (q : List Client), (∀ c ∈ q, c.output_buf_used = 0) →
      (imap_clients_unhibernate now (List.replicate q.length ConnectResult.failure)
          q).attempts = q.length ∧
      (imap_clients_unhibernate now (List.replicate q.length ConnectResult.failure)
          q).timer_removed = true) ∧
    (∀ (now : Nat) (conns : List ConnectResult) (c : Client) (rest : List Client),
      (imap_client_try_move_back now (headConn conns) c).returned = false →
      (imap_clients_unhibernate now conns (c :: rest)).attempts = 1 ∧
      (imap_clients_unhibernate now conns (c :: rest)).timer_removed = false) := by
  constructor
  · intro now q
    induction q with
    | nil => intro _; simp [imap_clients_unhibernate]
    | cons c rest ih =>
      intro h
      have hc : c.output_buf_used = 0 := h c (by simp)
      have hr : imap_client_try_move_back now ConnectResult.failure c =
          ⟨true, true, .destroyed IMAP_CLIENT_UNHIBERNATE_ERROR⟩ := by
        simp [imap_client_try_move_back, hc]
      have ihr := ih (fun x hx => h x (List.mem_cons_of_mem _ hx))
      simp [imap_clients_unhibernate, headConn, tailConn, List.replicate_succ, hr,
            ihr.1, ihr.2]
  · intro now conns c rest h
    simp [imap_clients_unhibernate, h]

/-- Witness for C4_batched_tick at a concrete two-element queue. -/
theorem C4_batched_tick_witness :
    (imap_clients_unhibernate 5
        (List.replicate [exampleClientA, exampleClientB].length ConnectResult.failure)
        [exampleClientA, exampleClientB]).attempts
      = [exampleClientA, exampleClientB].length :=
  (C4_batched_tick.1 5 [exampleClientA, exampleClientB] (by decide)).1

/-- Claim C6: if the output buffer holds at least one buffered byte when an
unhibernation attempt is triggered, the session is destroyed with the
buffer-full reason and no master connection is initiated. -/
theorem C6_buffer_full_refused : ∀ (now : Nat) (conn : ConnectResult) (c : Client),
    0 < c.output_buf_used →
    imap_client_try_move_back now conn c =
      ⟨true, false, .destroyed IMAP_CLIENT_BUFFER_FULL_ERROR⟩ := by
  intro now conn c h
  simp [imap_client_try_move_back, h]

/-- Witness for C6_buffer_full_refused. -/
theorem C6_buffer_full_refused_witness :
    imap_client_try_move_back 0 ConnectResult.success
        { exampleClientA with output_buf_used := 7 } =
      ⟨true, false, .destroyed IMAP_CLIENT_BUFFER_FULL_ERROR⟩ :=
  C6_buffer_full_refused 0 ConnectResult.success _ (by decide)

/-- Claim C9: imap_clients_kick returns 0 for every user string and every
conn_guid, regardless of how many matching sessions it terminated; the
survivors are exactly the non-matching clients. -/
theorem C9_kick_returns_zero :
    ∀ (clients : List KClient) (user : String) (conn_guid : List Nat),
      (imap_clients_kick clients user conn_guid).2 = 0 ∧
      (imap_clients_kick clients user conn_guid).1 =
        clients.filter (fun c => ! kick_matches c user conn_guid) := by
  intro clients user conn_guid
  induction clients with
  | nil => simp [imap_clients_kick]
  | cons c rest ih =>
    by_cases hm : kick_matches c user conn_guid = true <;>
      simp [imap_clients_kick, List.filter_cons, hm, ih.1, ih.2]

/-- The comparator computes exactly the deadline ordering: its t1 and t2
are the deadlines of the two sessions. -/
theorem client_unhibernate_cmp_eq (c1 c2 : Client) :
    client_unhibernate_cmp c1 c2 =
      if unhibernate_deadline c1 < unhibernate_deadline c2 then -1
      else if unhibernate_deadline c2 < unhibernate_deadline c1 then 1 else 0 := rfl

/-- Claim C5: the deadline of a queued session is move_back_start + 10 s
when input_pending and move_back_start + 5 min otherwise; the timeout test
fires exactly when that deadline has passed (and a move-back was started);
the priority-queue comparator orders sessions by exactly this deadline; and
a deferred attempt whose deadline has elapsed destroys the session with the
unhibernate-failed reason. -/
theorem C5_deadline_scheduling :
    (∀ (now : Nat) (c : Client),
      imap_move_has_reached_timeout now c ↔
        (c.move_back_start ≠ 0 ∧ unhibernate_deadline c < now)) ∧
    (∀ c1 c2 : Client,
      (client_unhibernate_cmp c1 c2 < 0 ↔
        unhibernate_deadline c1 < unhibernate_deadline c2) ∧
      (client_unhibernate_cmp c1 c2 = 0 ↔
        unhibernate_deadline c1 = unhibernate_deadline c2) ∧
      (0 < client_unhibernate_cmp c1 c2 ↔
        unhibernate_deadline c2 < unhibernate_deadline c1)) ∧
    (∀ (now : Nat) (c : Client),
      c.output_buf_used = 0 →
      imap_move_has_reached_timeout now c →
      imap_client_try_move_back now ConnectResult.busy c =
        ⟨true, true, .destroyed IMAP_CLIENT_UNHIBERNATE_ERROR⟩) := by
  refine ⟨?_, ?_, ?_⟩
  · intro now c
    by_cases hp : c.input_pending <;>
      simp [imap_move_has_reached_timeout, unhibernate_deadline,
            IMAP_CLIENT_MOVE_BACK_WITH_INPUT_TIMEOUT_SECS,
            IMAP_CLIENT_MOVE_BACK_WITHOUT_INPUT_TIMEOUT_SECS, hp] <;>
      omega
  · intro c1 c2
    rcases Nat.lt_trichotomy (unhibernate_deadline c1) (unhibernate_deadline c2)
      with h | h | h <;>
      rw [client_unhibernate_cmp_eq] <;>
      refine ⟨?_, ?_, ?_⟩ <;>
      simp [h] <;>
      omega
  · intro now c h1 h2
    simp [imap_client_try_move_back, h1, h2]

/-- Witness for C5_deadline_scheduling: a deferred session with input
pending, started at second 1, examined at second 20. -/
theorem C5_deadline_scheduling_witness :
    imap_client_try_move_back 20 ConnectResult.busy exampleClientA =
      ⟨true, true, .destroyed IMAP_CLIENT_UNHIBERNATE_ERROR⟩ :=
  C5_deadline_scheduling.2.2 20 exampleClientA (by decide) (by decide)

/-- Claim C8: in every reachable state a session is in the retry priority
queue iff its unhibernate_queued flag is true: the invariant holds in the
initial state and is preserved by the enqueue step of a deferred
imap_client_move_back, by imap_client_stop and by imap_client_destroy. -/
theorem C8_queue_membership_invariant :
    queueInv { clients := [], queue := [] } ∧
    ∀ (s : GState) (i : Nat), queueInv s →
      queueInv (gmove_back_enqueue s i) ∧ queueInv (gstop s i) ∧
        queueInv (gdestroy s i) := by
  constructor
  · intro c hc
    simp at hc
  · intro s i h
    have hstop : queueInv (gstop s i) := by
      unfold gstop
      by_cases hq : getQueued s.clients i = true
      · rw [if_pos hq]
        intro c hc
        simp only [setQueued, List.mem_map] at hc
        obtain ⟨c0, hc0, rfl⟩ := hc
        by_cases hcid : c0.cid = i
        · simp [hcid, List.mem_filter]
        · simp [hcid, List.mem_filter, h c0 hc0]
      · rw [if_neg hq]
        exact h
    have henq : queueInv (gmove_back_enqueue s i) := by
      unfold gmove_back_enqueue
      by_cases hq : getQueued s.clients i = true
      · rw [if_pos hq]
        exact h
      · rw [if_neg hq]
        intro c hc
        simp only [setQueued, List.mem_map] at hc
        obtain ⟨c0, hc0, rfl⟩ := hc
        by_cases hcid : c0.cid = i
        · simp [hcid, List.mem_cons]
        · simp [hcid, List.mem_cons, h c0 hc0]
    have hdes : queueInv (gdestroy s i) := by
      unfold gdestroy
      intro c hc
      exact hstop c (List.mem_of_mem_filter hc)
    exact ⟨henq, hstop, hdes⟩

/-- Witness for C8_queue_membership_invariant at a concrete state: client 1
is queued and flagged, client 2 is neither; stopping client 1 preserves the
invariant. -/
theorem C8_queue_membership_invariant_witness :
    queueInv (gstop { clients := [⟨1, true⟩, ⟨2, false⟩], queue := [1] } 1) :=
  (C8_queue_membership_invariant.2 { clients := [⟨1, true⟩, ⟨2, false⟩], queue := [1] } 1
    (by decide)).2.1

/-- An empty buffer parses as need-more. -/
theorem parse_nil_unknown : imap_client_input_parse [] = .ok .unknown := by decide

/-- Claim C7: when the accumulated input parses as DONEIDLE with a new tag,
and the flush makes progress, the send accepts the whole reply, and idle
keepalives are configured, the session stays hibernated (no destruction, no
move-back, hence no broker connection), its stored tag is replaced by the
new tag, old-tag OK Idle completed CRLF + idling CRLF is written to the
client, the parsed bytes are skipped and the keepalive timer is rearmed. -/
theorem C7_doneidle_refresh :
    ∀ (c : IdleClient) (data : List Nat) (env : IdleEnv) (new_tag : List Nat),
      imap_client_input_parse data = .ok (.doneIdle new_tag) →
      0 < env.flush_ret →
      env.send_ret = ((ok_idle_completed c.tag).length : Int) →
      0 < c.imap_idle_notify_interval →
      imap_client_input_idle_cmd c data env =
        .stillHibernating
          { c with tag := new_tag, next_read_threshold := 0, keepalive_timer := true }
          (ok_idle_completed c.tag) data.length := by
  intro c data env new_tag hp hf hs hi
  have hne : ¬ data.length = 0 := by
    intro h0
    rw [List.length_eq_zero] at h0
    subst h0
    rw [parse_nil_unknown] at hp
    simp at hp
  have hsnn : ¬ env.send_ret < 0 := by
    rw [hs]
    exact Int.not_lt.mpr (Int.natCast_nonneg _)
  have hizero : ¬ c.imap_idle_notify_interval = 0 := by omega
  unfold imap_client_input_idle_cmd
  rw [if_neg hne, hp]
  simp only []
  rw [if_pos hf, if_neg hsnn, if_neg (by simp [hs])]
  simp [imap_client_add_idle_keepalive, hizero]

/-- Witness for C7_doneidle_refresh: tag A000, input DONE CRLF A001 SP IDLE
CRLF, flush returns 1, send accepts all 35 bytes. -/
theorem C7_doneidle_refresh_witness :
    imap_client_input_idle_cmd exampleIdleClient exampleDoneIdleInput exampleIdleEnv =
      .stillHibernating
        { exampleIdleClient with
          tag := [65, 48, 48, 49],
          next_read_threshold := 0,
          keepalive_timer := true }
        (ok_idle_completed exampleIdleClient.tag) exampleDoneIdleInput.length :=
  C7_doneidle_refresh exampleIdleClient exampleDoneIdleInput exampleIdleEnv
    [65, 48, 48, 49] (by decide) (by decide) (by decide) (by decide)

/-- The tag loop consumes exactly the tag bytes when a space terminator
follows them. -/
theorem skipTag_stops_at_space (tag rest : List Nat)
    (htag : ∀ x ∈ tag, x ≠ 32 ∧ x ≠ 13 ∧ x ≠ 9) :
    skipTag (tag ++ 32 :: rest) = some (tag, 32 :: rest) := by
  induction tag with
  | nil => simp [skipTag]
  | cons x xs ih =>
    have hx := htag x (List.mem_cons_self x xs)
    have ihx := ih fun y hy => htag y (List.mem_cons_of_mem x hy)
    simp [skipTag, hx.1, hx.2.1, hx.2.2, ihx]

/-- Evaluations of the parser on every case variant of DONE and its proper
prefixes, a carriage return included or not. -/
theorem parse_done_variants (a b c e : Nat)
    (ha : lowerByte a = 100) (hb : lowerByte b = 111) (hc : lowerByte c = 110)
    (he : lowerByte e = 101) :
    imap_client_input_parse [a] = .ok .unknown ∧
    imap_client_input_parse [a, b] = .ok .unknown ∧
    imap_client_input_parse [a, b, c] = .ok .unknown ∧
    imap_client_input_parse [a, b, c, e] = .ok .unknown ∧
    imap_client_input_parse [a, b, c, e, 13] = .ok .unknown ∧
    imap_client_input_parse [a, b, c, e, 10] = .ok .doneLF ∧
    imap_client_input_parse [a, b, c, e, 13, 10] = .ok .doneCRLF := by
  refine ⟨?_, ?_, ?_, ?_, ?_, ?_, ?_⟩ <;>
    simp [imap_client_input_parse, i_memcasecmp_done, DONE_low, ha, hb, hc, he]

/-- The parser classifies a whole DONE CR? LF tag SP IDLE CR? LF buffer as
DONEIDLE and extracts the tag, for any case variant of the keywords and any
tag free of space, carriage return and horizontal tab. -/
theorem parse_doneidle_full (a b c e f g k m : Nat) (tag : List Nat)
    (cr1 cr2 : Bool)
    (ha : lowerByte a = 100) (hb : lowerByte b = 111) (hc : lowerByte c = 110)
    (he : lowerByte e = 101) (hf : lowerByte f = 105) (hg : lowerByte g = 100)
    (hk : lowerByte k = 108) (hm : lowerByte m = 101)
    (htag : ∀ x ∈ tag, x ≠ 32 ∧ x ≠ 13 ∧ x ≠ 9) :
    imap_client_input_parse
      ([a, b, c, e] ++ (if cr1 then [13] else []) ++ [10] ++ tag ++ [32] ++
        [f, g, k, m] ++ (if cr2 then [13] else []) ++ [10]) =
      .ok (.doneIdle tag) := by
  have hskip1 := skipTag_stops_at_space tag [f, g, k, m, 10] htag
  have hskip2 := skipTag_stops_at_space tag [f, g, k, m, 13, 10] htag
  cases cr1 <;> cases cr2 <;>
    simp [imap_client_input_parse, i_memcasecmp_done, i_memcasecmp_idle,
          DONE_low, IDLE_low, ha, hb, hc, he, hf, hg, hk, hm,
          hskip1, hskip2]

/-- Claim C2 counterexample: DONE CRLF is a proper prefix of the DONEIDLE
sequence DONE CRLF A SP IDLE CRLF (so it arises as an accumulated prefix
under chunked delivery), yet the parser classifies it as DONE-CRLF rather
than returning the need-more state the claim requires on proper prefixes. -/
theorem C2_counterexample :
    [68, 79, 78, 69, 13, 10] ++ [65, 32, 73, 68, 76, 69, 13, 10] =
      [68, 79, 78, 69, 13, 10, 65, 32, 73, 68, 76, 69, 13, 10] ∧
    imap_client_input_parse [68, 79, 78, 69, 13, 10, 65, 32, 73, 68, 76, 69, 13, 10] =
      .ok (.doneIdle [65]) ∧
    imap_client_input_parse [68, 79, 78, 69, 13, 10] = .ok .doneCRLF ∧
    imap_client_input_parse [68, 79, 78, 69, 13, 10] ≠ .ok .unknown := by decide

/-- Claim C2 (amended): for the sequences DONE LF and DONE CRLF (keywords
case-insensitive) every proper prefix parses as need-more and the full
sequence classifies as DONE-LF respectively DONE-CRLF, for any chunking;
a full DONE CR? LF tag SP IDLE CR? LF sequence (tag non-empty and free of
SP, CR, TAB) classifies as DONEIDLE with that tag; but a proper prefix of a
DONEIDLE sequence need not parse as need-more (the DONE line classifies as
soon as it is complete, as the counterexample shows). -/
theorem C2_chunked_classification :
    (∀ a b c e : Nat,
      lowerByte a = 100 → lowerByte b = 111 → lowerByte c = 110 → lowerByte e = 101 →
      (∀ p t : List Nat, p ++ t = [a, b, c, e, 10] → t ≠ [] →
        imap_client_input_parse p = .ok .unknown) ∧
      imap_client_input_parse [a, b, c, e, 10] = .ok .doneLF) ∧
    (∀ a b c e : Nat,
      lowerByte a = 100 → lowerByte b = 111 → lowerByte c = 110 → lowerByte e = 101 →
      (∀ p t : List Nat, p ++ t = [a, b, c, e, 13, 10] → t ≠ [] →
        imap_client_input_parse p = .ok .unknown) ∧
      imap_client_input_parse [a, b, c, e, 13, 10] = .ok .doneCRLF) ∧
    (∀ (a b c e f g k m : Nat) (tag : List Nat) (cr1 cr2 : Bool),
      lowerByte a = 100 → lowerByte b = 111 → lowerByte c = 110 → lowerByte e = 101 →
      lowerByte f = 105 → lowerByte g = 100 → lowerByte k = 108 → lowerByte m = 101 →
      tag ≠ [] → (∀ x ∈ tag, x ≠ 32 ∧ x ≠ 13 ∧ x ≠ 9) →
      imap_client_input_parse
        ([a, b, c, e] ++ (if cr1 then [13] else []) ++ [10] ++ tag ++ [32] ++
          [f, g, k, m] ++ (if cr2 then [13] else []) ++ [10]) =
        .ok (.doneIdle tag)) := by
  refine ⟨?_, ?_, ?_⟩
  · intro a b c e ha hb hc he
    have hpre := parse_done_variants a b c e ha hb hc he
    refine ⟨?_, hpre.2.2.2.2.2.1⟩
    intro p t hpt htne
    rcases p with _ | ⟨x1, _ | ⟨x2, _ | ⟨x3, _ | ⟨x4, _ | ⟨x5, p6⟩⟩⟩⟩⟩ <;>
      simp only [List.cons_append, List.nil_append, List.cons.injEq] at hpt
    · decide
    · obtain ⟨rfl, -⟩ := hpt
      exact hpre.1
    · obtain ⟨rfl, rfl, -⟩ := hpt
      exact hpre.2.1
    · obtain ⟨rfl, rfl, rfl, -⟩ := hpt
      exact hpre.2.2.1
    · obtain ⟨rfl, rfl, rfl, rfl, -⟩ := hpt
      exact hpre.2.2.2.1
    · obtain ⟨-, -, -, -, -, h6⟩ := hpt
      rcases List.append_eq_nil.mp h6 with ⟨-, rfl⟩
      exact absurd rfl htne
  · intro a b c e ha hb hc he
    have hpre := parse_done_variants a b c e ha hb hc he
    refine ⟨?_, hpre.2.2.2.2.2.2⟩
    intro p t hpt htne
    rcases p with _ | ⟨x1, _ | ⟨x2, _ | ⟨x3, _ | ⟨x4, _ | ⟨x5, _ | ⟨x6, p7⟩⟩⟩⟩⟩⟩ <;>
      simp only [List.cons_append, List.nil_append, List.cons.injEq] at hpt
    · decide
    · obtain ⟨rfl, -⟩ := hpt
      exact hpre.1
    · obtain ⟨rfl, rfl, -⟩ := hpt
      exact hpre.2.1
    · obtain ⟨rfl, rfl, rfl, -⟩ := hpt
      exact hpre.2.2.1
    · obtain ⟨rfl, rfl, rfl, rfl, -⟩ := hpt
      exact hpre.2.2.2.1
    · obtain ⟨rfl, rfl, rfl, rfl, rfl, -⟩ := hpt
      exact hpre.2.2.2.2.1
    · obtain ⟨-, -, -, -, -, -, h7⟩ := hpt
      rcases List.append_eq_nil.mp h7 with ⟨-, rfl⟩
      exact absurd rfl htne
  · intro a b c e f g k m tag cr1 cr2 ha hb hc he hf hg hk hm htne htag
    exact parse_doneidle_full a b c e f g k m tag cr1 cr2 ha hb hc he hf hg hk hm htag

/-- Witness for C2_chunked_classification at concrete inputs: the proper
prefix DO of done LF parses as need-more, the full done LF parses as
DONE-LF, and DONE CRLF AB SP idle LF parses as DONEIDLE with tag AB. -/
theorem C2_chunked_classification_witness :
    imap_client_input_parse [100, 79] = .ok .unknown ∧
    imap_client_input_parse [100, 79, 78, 101, 10] = .ok .doneLF ∧
    imap_client_input_parse
      ([68, 79, 78, 69] ++ [13] ++ [10] ++ [65, 66] ++ [32] ++
        [105, 100, 108, 101] ++ [] ++ [10]) = .ok (.doneIdle [65, 66]) := by
  refine ⟨?_, ?_, ?_⟩
  · exact (C2_chunked_classification.1 100 79 78 101 (by decide) (by decide)
      (by decide) (by decide)).1 [100, 79] [78, 101, 10] (by decide) (by decide)
  · exact (C2_chunked_classification.1 100 79 78 101 (by decide) (by decide)
      (by decide) (by decide)).2
  · exact C2_chunked_classification.2.2 68 79 78 69 105 100 108 101 [65, 66]
      true false (by decide) (by decide) (by decide) (by decide) (by decide)
      (by decide) (by decide) (by decide) (by decide) (by decide)
